import Mathlib

/-!
Verification development for the ride-hailing stream-analytics simulator.

The Python sources (`city_grid.py`, `ride_hailing_generator.py`) are shallowly
embedded below: Python floats become `ℚ`, dictionaries become association
lists preserving insertion order, random draws become explicit parameters
(with their range constraints as hypotheses where a claim needs them), and
code that can raise becomes `Option`-valued, `none` marking the raised
exception.  The external `geodesic` great-circle distance (a library call)
is abstracted as a distance-function parameter.
-/

namespace RideHailing

/-- Python `int(x)` on a float: truncation toward zero. -/
def pyTrunc (q : ℚ) : ℤ := if 0 ≤ q then ⌊q⌋ else ⌈q⌉

/-- Python `round(x)` to an integer: round half to even. -/
def pyRound (q : ℚ) : ℤ :=
  let f := ⌊q⌋
  let frac := q - f
  if frac < 1/2 then f
  else if 1/2 < frac then f + 1
  else if f % 2 = 0 then f else f + 1

/-- Python `round(x, 2)`: round to two decimal places, half to even. -/
def pyRound2 (q : ℚ) : ℚ := (pyRound (q * 100) : ℚ) / 100

/-- A geographic point `(latitude, longitude)`. -/
abbrev Point : Type := ℚ × ℚ

/-- One hotspot entry of `CityGrid.__init__`: a disc given by center and
radius (in degrees) plus a display name. -/
structure Hotspot where
  center : Point
  radius : ℚ
  name : String
deriving DecidableEq, Repr

/-- The four hotspot categories (the keys of the `self.hotspots` dict). -/
inductive Category where
  | business_districts
  | residential_areas
  | entertainment_zones
  | airports
deriving DecidableEq, Repr

open Category

/-- The literal hotspot table built in `CityGrid.__init__`. -/
def hotspots : Category → List Hotspot
  | business_districts =>
      [⟨(4075/100, -7398/100), 2/100, "Midtown"⟩,
       ⟨(4071/100, -7401/100), 15/1000, "Financial District"⟩]
  | residential_areas =>
      [⟨(4078/100, -7395/100), 25/1000, "Upper East Side"⟩,
       ⟨(4073/100, -7399/100), 2/100, "Greenwich Village"⟩,
       ⟨(408/10, -7396/100), 25/1000, "Upper West Side"⟩]
  | entertainment_zones =>
      [⟨(4076/100, -7398/100), 15/1000, "Times Square"⟩,
       ⟨(4074/100, -7399/100), 15/1000, "Chelsea"⟩]
  | airports =>
      [⟨(4064/100, -7378/100), 3/100, "JFK Airport"⟩,
       ⟨(4077/100, -7387/100), 2/100, "LaGuardia Airport"⟩]

/-- Iteration order of `self.hotspots.items()` (dict insertion order). -/
def allCategories : List Category :=
  [business_districts, residential_areas, entertainment_zones, airports]

/-- The per-category `if/elif` chain inside `get_hotspot_demand_factor`,
as the amount added to `demand_factor` for one in-range hotspot at a
given hour (`time_of_day.hour`). -/
def categoryIncrement (cat : Category) (hour : ℕ) : ℚ :=
  match cat with
  | business_districts =>
      if 7 ≤ hour ∧ hour < 10 then 2
      else if 16 ≤ hour ∧ hour < 19 then 5/2
      else if 12 ≤ hour ∧ hour < 14 then 3/2
      else if 22 ≤ hour ∨ hour < 5 then 1/5
      else 0
  | residential_areas =>
      if 6 ≤ hour ∧ hour < 9 then 9/5
      else if 17 ≤ hour ∧ hour < 20 then 6/5
      else 0
  | entertainment_zones =>
      if 18 ≤ hour ∧ hour < 22 then 2
      else if 22 ≤ hour ∨ hour < 3 then 3
      else 0
  | airports =>
      1 + (if (7 ≤ hour ∧ hour < 10) ∨ (16 ≤ hour ∧ hour < 20) then 1/2 else 0)

/-- `CityGrid.get_hotspot_demand_factor`.  `dist` abstracts the external
`geodesic(...).kilometers` great-circle distance call.  The accumulator
starts at `1.0`, every hotspot within `radius * 111` kilometers adds its
category/hour increment, and the result is floored at `0.1`. -/
def get_hotspot_demand_factor (dist : Point → Point → ℚ)
    (location : Point) (hour : ℕ) : ℚ :=
  let df := allCategories.foldl (fun acc cat =>
    (hotspots cat).foldl (fun acc2 h =>
      if dist location h.center ≤ h.radius * 111 then
        acc2 + categoryIncrement cat hour
      else acc2) acc) 1
  max (1/10) df

/-- The bounding box held by a `CityGrid` instance (constructor defaults
approximate New York City). -/
structure CityGridCfg where
  lat_range : ℚ × ℚ := (4070/100, 4085/100)
  lon_range : ℚ × ℚ := (-7405/100, -7390/100)
deriving DecidableEq, Repr

/-- The random draws consumed by one call of `CityGrid.get_random_location`.
`branch_roll` is the `random.random()` value; `category` and `hotspot_idx`
model the two `random.choice` calls; `angle_cos`/`angle_sin` are the cosine
and sine of the uniformly drawn angle (kept abstract, constrained by
`angle_cos^2 + angle_sin^2 = 1` in the theorems); `r` is
`random.uniform(0, hotspot.radius)`; `u_lat`/`u_lon` are the unit draws of
the two `random.uniform(a, b)` calls of the non-hotspot branch
(`uniform(a, b)` returns `a + u * (b - a)` for a unit draw `u`). -/
structure LocRand where
  branch_roll : ℚ
  category : Category
  hotspot_idx : ℕ
  angle_cos : ℚ
  angle_sin : ℚ
  r : ℚ
  u_lat : ℚ
  u_lon : ℚ

/-- Placeholder hotspot for total list indexing; every category's list is
nonempty, so a constrained index never reaches it. -/
def dfltHotspot : Hotspot := ⟨(0, 0), 0, ""⟩

/-- The hotspot picked by the two chained `random.choice` calls. -/
def chosenHotspot (rnd : LocRand) : Hotspot :=
  (hotspots rnd.category).getD (rnd.hotspot_idx % (hotspots rnd.category).length)
    dfltHotspot

/-- `CityGrid.get_random_location`: with probability `hotspot_bias` offset a
random hotspot's center by polar coordinates, otherwise draw both
coordinates uniformly in the bounding box. -/
def get_random_location (g : CityGridCfg) (hotspot_bias : ℚ) (rnd : LocRand) :
    Point :=
  if rnd.branch_roll < hotspot_bias then
    ((chosenHotspot rnd).center.1 + rnd.r * rnd.angle_cos,
     (chosenHotspot rnd).center.2 + rnd.r * rnd.angle_sin)
  else
    (g.lat_range.1 + rnd.u_lat * (g.lat_range.2 - g.lat_range.1),
     g.lon_range.1 + rnd.u_lon * (g.lon_range.2 - g.lon_range.1))

/-- `CityGrid.calculate_trip_details`.  `dist` abstracts the external
`geodesic(...).kilometers` call; `avg_speed` is the `random.uniform(15, 35)`
draw and `delay` the `random.uniform(0, 10)` draw.  Returns
`(distance, duration, fare)` exactly as the Python dict does: the fare is
computed from the raw distance and duration, and only then are the three
values rounded. -/
def calculate_trip_details (dist : Point → Point → ℚ) (avg_speed delay : ℚ)
    (pickup destination : Point) : ℚ × ℤ × ℚ :=
  let distance_km := dist pickup destination
  let duration_minutes := (distance_km / avg_speed) * 60 + delay
  let fare := 5/2 + distance_km * (7/4) + duration_minutes * (7/20)
  (pyRound2 distance_km, pyRound duration_minutes, pyRound2 fare)

/-- One driver record, as built by `_initialize_drivers` (the nested
`current_location` and `vehicle_info` dicts are flattened into fields). -/
structure Driver where
  driver_id : String
  current_location : Point
  status : String
  vehicle_id : String
  vehicle_type : String
  capacity : ℕ
  current_ride_id : Option String
  last_update : ℤ
  battery_level : ℚ
deriving DecidableEq, Repr

/-- One user record, as built by `_initialize_users`. -/
structure User where
  user_id : String
  name : String
  home_location : Point
  work_location : Point
  preferred_vehicle_type : String
  cancellation_probability : ℚ
  last_activity : ℤ
deriving DecidableEq, Repr

/-- One emitted ride-request record (the dict appended by
`generate_ride_requests`). -/
structure RideRequest where
  request_id : String
  user_id : String
  timestamp : ℤ
  pickup_location : Point
  destination : Point
  status : String
  vehicle_type : String
  estimated_fare : ℚ
  estimated_duration : ℤ
  estimated_distance : ℚ
  passenger_count : ℤ
deriving DecidableEq, Repr

/-- The mutable state of a `RideHailingDataGenerator`: the config's
`base_request_rate`, the two pools (Python dicts, modelled as association
lists in insertion order), the never-populated `active_rides` dict and the
simulation clock `current_time` in epoch seconds (the source zeroes
microseconds, so the clock is integral). -/
structure GenState where
  base_request_rate : ℚ
  drivers : List (String × Driver)
  users : List (String × User)
  active_rides : List (String × RideRequest)
  current_time : ℤ
deriving Repr

/-- `self.vehicle_types`: the five vehicle types with their capacities, in
dict insertion order. -/
def vehicle_types : List (String × ℕ) :=
  [("Economy", 4), ("Comfort", 4), ("Premium", 4), ("SUV", 6), ("Van", 8)]

/-- Python `range(n)` for a possibly negative `n`: empty when `n ≤ 0`. -/
def pyRange (n : ℤ) : List ℕ := List.range n.toNat

/-- Random draws consumed for one driver in `_initialize_drivers`:
uuid suffixes, the sampled location, the `random.choice` index into the
vehicle-type list and the weighted status choice, and the battery draw. -/
structure DriverRand where
  id_suffix : String
  location : Point
  vtype_idx : ℕ
  status : String
  vehicle_id_suffix : String
  battery : ℚ

/-- Random draws consumed for one user in `_initialize_users`. -/
structure UserRand where
  id_suffix : String
  name : String
  home_location : Point
  work_location : Point
  vtype_idx : ℕ
  cancellation : ℚ

/-- The driver dict entry built per iteration of `_initialize_drivers`. -/
def mkDriver (now : ℤ) (r : DriverRand) : String × Driver :=
  let vt := vehicle_types.getD (r.vtype_idx % vehicle_types.length) ("", 0)
  ("D-" ++ r.id_suffix,
   { driver_id := "D-" ++ r.id_suffix
     current_location := r.location
     status := r.status
     vehicle_id := "V-" ++ r.vehicle_id_suffix
     vehicle_type := vt.1
     capacity := vt.2
     current_ride_id := none
     last_update := now
     battery_level := r.battery })

/-- The user dict entry built per iteration of `_initialize_users`. -/
def mkUser (now : ℤ) (r : UserRand) : String × User :=
  let vt := vehicle_types.getD (r.vtype_idx % vehicle_types.length) ("", 0)
  ("U-" ++ r.id_suffix,
   { user_id := "U-" ++ r.id_suffix
     name := r.name
     home_location := r.home_location
     work_location := r.work_location
     preferred_vehicle_type := vt.1
     cancellation_probability := r.cancellation
     last_activity := now })

/-- `RideHailingDataGenerator._initialize_drivers`: one entry per element of
`range(num_drivers)`. -/
def initialize_drivers (num_drivers : ℤ) (now : ℤ) (dr : ℕ → DriverRand) :
    List (String × Driver) :=
  (pyRange num_drivers).map (fun i => mkDriver now (dr i))

/-- `RideHailingDataGenerator._initialize_users`. -/
def initialize_users (num_users : ℤ) (now : ℤ) (ur : ℕ → UserRand) :
    List (String × User) :=
  (pyRange num_users).map (fun i => mkUser now (ur i))

/-- `RideHailingDataGenerator.__init__` for a config
`{num_drivers, num_users, base_request_rate}`: builds both pools, an empty
`active_rides`, and sets the clock.  The constructor performs no
validation and raises on no count value. -/
def init_generator (num_drivers num_users : ℤ) (base_request_rate : ℚ)
    (now : ℤ) (dr : ℕ → DriverRand) (ur : ℕ → UserRand) : GenState :=
  { base_request_rate := base_request_rate
    drivers := initialize_drivers num_drivers now dr
    users := initialize_users num_users now ur
    active_rides := []
    current_time := now }

/-- Random draws consumed for one request inside the tick loop. -/
structure ReqRand where
  user_idx : ℕ
  id_suffix : String
  jitter : ℤ
  fare : ℚ
  duration : ℤ
  distance : ℚ
  passengers : ℤ

instance : Inhabited User :=
  ⟨{ user_id := "", name := "", home_location := (0, 0), work_location := (0, 0),
     preferred_vehicle_type := "", cancellation_probability := 0,
     last_activity := 0 }⟩

/-- The user picked by `random.choice(list(self.users.values()))`, given a
nonempty pool (`user_idx` ranges over the pool via `% length`). -/
def chooseUser (users : List (String × User)) (idx : ℕ) : User :=
  (users.getD (idx % users.length) ("", default)).2

/-- The request dict appended per loop iteration of
`generate_ride_requests`, built from the tick-start clock value `now`. -/
def mkRequest (users : List (String × User)) (now : ℤ) (r : ReqRand) :
    RideRequest :=
  let user := chooseUser users r.user_idx
  { request_id := "R-" ++ r.id_suffix
    user_id := user.user_id
    timestamp := now + r.jitter
    pickup_location := user.home_location
    destination := user.work_location
    status := "REQUESTED"
    vehicle_type := user.preferred_vehicle_type
    estimated_fare := r.fare
    estimated_duration := r.duration
    estimated_distance := r.distance
    passenger_count := r.passengers }

/-- `RideHailingDataGenerator.generate_ride_requests`.  `g` is the
`random.gauss(base_request_rate, 1)` draw; `rnd i` the draws of loop
iteration `i`.  The batch size is `max(1, int(g))`, so the loop body always
runs at least once; on an empty user pool the first `random.choice` raises
`IndexError` (modelled as `none`) before any request is built or the clock
moves.  Otherwise the batch is returned and the clock advances 5 seconds. -/
def generate_ride_requests (s : GenState) (g : ℚ) (rnd : ℕ → ReqRand) :
    Option (List RideRequest × GenState) :=
  let num_requests := max 1 (pyTrunc g)
  if s.users.isEmpty then none
  else
    some ((List.range num_requests.toNat).map
            (fun i => mkRequest s.users s.current_time (rnd i)),
          { s with current_time := s.current_time + 5 })

/-! ## Concrete fixtures used by witnesses and counterexamples -/

/-- Fixed driver-side random draws for concrete evaluations. -/
def testDriverRand : ℕ → DriverRand := fun i =>
  { id_suffix := toString i, location := (4075/100, -7398/100), vtype_idx := 0,
    status := "AVAILABLE", vehicle_id_suffix := toString i, battery := 1/2 }

/-- Fixed user-side random draws for concrete evaluations. -/
def testUserRand : ℕ → UserRand := fun i =>
  { id_suffix := toString i, name := "Test User",
    home_location := (4075/100, -7398/100),
    work_location := (4071/100, -7401/100), vtype_idx := 0,
    cancellation := 1/20 }

/-- Fixed per-request random draws for concrete evaluations. -/
def testReqRand : ℕ → ReqRand := fun _ =>
  { user_idx := 0, id_suffix := "req", jitter := 3, fare := 10, duration := 15,
    distance := 5, passengers := 2 }

/-- A generator built from config `{num_drivers: 0, num_users: 0}`. -/
def emptyPoolState : GenState := init_generator 0 0 5 1000 testDriverRand testUserRand

/-- A generator built from config `{num_drivers: 0, num_users: 1}`. -/
def onePoolState : GenState := init_generator 0 1 5 1000 testDriverRand testUserRand

/-! ## Shared helper lemmas -/

/-- Shape of a successful tick: the pool was nonempty, the batch is the
mapped range of length `max 1 (int g)`, and only the clock moved. -/
lemma generate_ride_requests_eq_some {s : GenState} {g : ℚ} {rnd : ℕ → ReqRand}
    {batch : List RideRequest} {s' : GenState}
    (hout : generate_ride_requests s g rnd = some (batch, s')) :
    s.users ≠ [] ∧
    batch = (List.range (max 1 (pyTrunc g)).toNat).map
        (fun i => mkRequest s.users s.current_time (rnd i)) ∧
    s' = { s with current_time := s.current_time + 5 } := by
  by_cases hemp : s.users.isEmpty
  · simp [generate_ride_requests, hemp] at hout
  · rw [Bool.not_eq_true] at hemp
    refine ⟨fun hnil => by simp [hnil] at hemp, ?_⟩
    simp only [generate_ride_requests, hemp, Bool.false_eq_true, if_false,
      Option.some.injEq, Prod.mk.injEq] at hout
    exact ⟨hout.1.symm, hout.2.symm⟩

/-- The one-user fixture has a nonempty pool. -/
lemma onePoolState_users_ne : onePoolState.users ≠ [] := by
  simp [onePoolState, init_generator, initialize_users, pyRange]

/-- Concrete evaluation of one tick on the one-user fixture with Gaussian
draw `g = 1`. -/
lemma tick_onePoolState_eval :
    generate_ride_requests onePoolState 1 testReqRand
      = some ((List.range 1).map
          (fun i => mkRequest onePoolState.users onePoolState.current_time
            (testReqRand i)),
        { onePoolState with current_time := onePoolState.current_time + 5 }) := by
  have hne : onePoolState.users.isEmpty = false := by
    simp [onePoolState, init_generator, initialize_users, pyRange]
  have h1 : max 1 (pyTrunc 1) = 1 := by norm_num [pyTrunc]
  simp only [generate_ride_requests, hne, Bool.false_eq_true, if_false, h1,
    Int.toNat_one]

/-! ## C1 -/

/-- C1 (counterexample): on a generator whose user pool is empty, the
per-tick operation does not return an empty batch — it faults
(`random.choice` on the empty value list raises `IndexError`, modelled as
`none`), because the batch size `max(1, int(gauss(..)))` is at least 1 and
the loop body runs. -/
theorem tick_on_empty_pool_faults_concretely :
    emptyPoolState.users = [] ∧
    generate_ride_requests emptyPoolState 5 testReqRand = none ∧
    generate_ride_requests emptyPoolState 5 testReqRand
      ≠ some ([], { emptyPoolState with
          current_time := emptyPoolState.current_time + 5 }) := by
  refine ⟨rfl, ?_, ?_⟩ <;>
    simp [generate_ride_requests, emptyPoolState, init_generator,
      initialize_users, pyRange]

/-- C1 (amended): on every generator whose user pool is empty, the per-tick
operation `generate_ride_requests` faults (raises `IndexError` at the first
`random.choice`) instead of returning an empty batch; no batch of any size
is returned. -/
theorem tick_on_empty_pool_faults (s : GenState) (g : ℚ) (rnd : ℕ → ReqRand)
    (h : s.users = []) : generate_ride_requests s g rnd = none := by
  simp [generate_ride_requests, h]

/-- C1 witness: the amended statement at the concrete empty-pool state. -/
theorem tick_on_empty_pool_faults_witness :
    emptyPoolState.users = [] ∧
    generate_ride_requests emptyPoolState 5 testReqRand = none :=
  ⟨rfl, tick_on_empty_pool_faults emptyPoolState 5 testReqRand rfl⟩

/-! ## C6 -/

/-- C6 (counterexample): constructing the engine with negative
`num_drivers` and `num_users` does not fail: Python `range` of a negative
count is empty, so construction succeeds, indistinguishable from the
zero-count configuration, with both pools empty. -/
theorem init_negative_counts_succeeds :
    init_generator (-1) (-1) 5 1000 testDriverRand testUserRand
        = init_generator 0 0 5 1000 testDriverRand testUserRand ∧
    (init_generator (-1) (-1) 5 1000 testDriverRand testUserRand).drivers = [] ∧
    (init_generator (-1) (-1) 5 1000 testDriverRand testUserRand).users = [] :=
  ⟨rfl, rfl, rfl⟩

/-- C6 (amended): construction with nonpositive (in particular negative)
counts performs no validation and raises no error; it succeeds and builds
empty driver and user pools, exactly as for zero counts. -/
theorem init_nonpositive_counts_builds_empty_pools (nd nu : ℤ) (rate : ℚ)
    (now : ℤ) (dr : ℕ → DriverRand) (ur : ℕ → UserRand)
    (hd : nd ≤ 0) (hu : nu ≤ 0) :
    (init_generator nd nu rate now dr ur).drivers = [] ∧
    (init_generator nd nu rate now dr ur).users = [] := by
  constructor <;>
    simp [init_generator, initialize_drivers, initialize_users, pyRange,
      Int.toNat_of_nonpos, hd, hu]

/-- C6 witness: the amended statement at the concrete configuration
`num_drivers = -1`, `num_users = -1`. -/
theorem init_nonpositive_counts_builds_empty_pools_witness :
    (init_generator (-1) (-1) 5 1000 testDriverRand testUserRand).drivers = [] ∧
    (init_generator (-1) (-1) 5 1000 testDriverRand testUserRand).users = [] :=
  init_nonpositive_counts_builds_empty_pools (-1) (-1) 5 1000 testDriverRand
    testUserRand (by norm_num) (by norm_num)

/-! ## C2 -/

/-- C2 (counterexample): the batch size is `max(1, int(g))` with `int`
truncating toward zero, not `max(1, round(g))`: at a Gaussian draw of
`g = 2.7` the code emits 2 requests while the claimed formula gives 3. -/
theorem tick_batch_size_truncates_not_rounds :
    (generate_ride_requests onePoolState (27/10) testReqRand).map
        (fun out => out.1.length) = some 2 ∧
    max 1 (pyRound (27/10)) = (3 : ℤ) := by
  constructor
  · have h2 : pyTrunc (27/10) = 2 := by norm_num [pyTrunc]
    simp [generate_ride_requests, onePoolState, init_generator, initialize_users,
      pyRange, h2]
  · norm_num [pyRound]

/-- C2 (amended): for every tick on a nonempty user pool, the number of
emitted requests equals `max(1, int(g))` — `g` the Gaussian draw with mean
`base_request_rate` and standard deviation 1, `int` truncating toward
zero — and consequently every such batch has size at least 1. -/
theorem tick_batch_size (s : GenState) (g : ℚ) (rnd : ℕ → ReqRand)
    (h : s.users ≠ []) :
    ∃ batch s', generate_ride_requests s g rnd = some (batch, s') ∧
      (batch.length : ℤ) = max 1 (pyTrunc g) ∧ 1 ≤ batch.length := by
  have hne : s.users.isEmpty = false := by
    simpa [List.isEmpty_iff] using h
  have hmax : (1 : ℤ) ≤ max 1 (pyTrunc g) := le_max_left _ _
  refine ⟨(List.range (max 1 (pyTrunc g)).toNat).map
      (fun i => mkRequest s.users s.current_time (rnd i)),
    { s with current_time := s.current_time + 5 }, ?_, ?_, ?_⟩
  · simp [generate_ride_requests, hne]
  · simp only [List.length_map, List.length_range]
    omega
  · simp only [List.length_map, List.length_range]
    omega

/-- C2 witness: the amended statement at the concrete one-user state with
Gaussian draw `g = 2.7`. -/
theorem tick_batch_size_witness :
    onePoolState.users ≠ [] ∧
    ∃ batch s', generate_ride_requests onePoolState (27/10) testReqRand
        = some (batch, s') ∧
      (batch.length : ℤ) = max 1 (pyTrunc (27/10)) ∧ 1 ≤ batch.length :=
  ⟨by simp [onePoolState, init_generator, initialize_users, pyRange],
   tick_batch_size onePoolState (27/10) testReqRand
     (by simp [onePoolState, init_generator, initialize_users, pyRange])⟩

/-! ## C7 -/

/-- C7: every request emitted by a successful tick is built from an entry
present in the user pool at generation time (the `random.choice` pick):
its `user_id` is that entry's id, its pickup is that user's home location,
its destination that user's work location, its vehicle type that user's
preferred type, and its status is `"REQUESTED"`. -/
theorem tick_request_fields (s : GenState) (g : ℚ) (rnd : ℕ → ReqRand)
    (batch : List RideRequest) (s' : GenState)
    (hout : generate_ride_requests s g rnd = some (batch, s')) :
    ∀ req ∈ batch, ∃ p ∈ s.users,
      req.user_id = p.2.user_id ∧
      req.pickup_location = p.2.home_location ∧
      req.destination = p.2.work_location ∧
      req.vehicle_type = p.2.preferred_vehicle_type ∧
      req.status = "REQUESTED" := by
  obtain ⟨hne, hbatch, _⟩ := generate_ride_requests_eq_some hout
  intro req hreq
  rw [hbatch, List.mem_map] at hreq
  obtain ⟨i, _, rfl⟩ := hreq
  have hlen : 0 < s.users.length := List.length_pos.mpr hne
  have hidx : (rnd i).user_idx % s.users.length < s.users.length :=
    Nat.mod_lt _ hlen
  refine ⟨s.users.getD ((rnd i).user_idx % s.users.length) ("", default),
    ?_, rfl, rfl, rfl, rfl, rfl⟩
  rw [List.getD_eq_getElem s.users _ hidx]
  exact List.getElem_mem hidx

/-- C7 witness: the field correspondence at the concrete one-user state. -/
theorem tick_request_fields_witness :
    onePoolState.users ≠ [] ∧
    ∀ req ∈ ((List.range 1).map
        (fun i => mkRequest onePoolState.users onePoolState.current_time
          (testReqRand i))),
      ∃ p ∈ onePoolState.users,
        req.user_id = p.2.user_id ∧
        req.pickup_location = p.2.home_location ∧
        req.destination = p.2.work_location ∧
        req.vehicle_type = p.2.preferred_vehicle_type ∧
        req.status = "REQUESTED" :=
  ⟨onePoolState_users_ne,
   tick_request_fields onePoolState 1 testReqRand
    ((List.range 1).map
      (fun i => mkRequest onePoolState.users onePoolState.current_time
        (testReqRand i)))
    { onePoolState with current_time := onePoolState.current_time + 5 }
    tick_onePoolState_eval⟩

/-! ## C8 -/

/-- C8: on a successful tick, every emitted request's timestamp is the
tick-start clock value plus a jitter in `[0, 4]` seconds (given that each
`random.randint(0, 4)` draw lies in its range), and afterwards the clock
has advanced by exactly 5 seconds, hence strictly increased. -/
theorem tick_timestamps_and_clock (s : GenState) (g : ℚ) (rnd : ℕ → ReqRand)
    (batch : List RideRequest) (s' : GenState)
    (hj : ∀ i, 0 ≤ (rnd i).jitter ∧ (rnd i).jitter ≤ 4)
    (hout : generate_ride_requests s g rnd = some (batch, s')) :
    (∀ req ∈ batch, ∃ j : ℤ, 0 ≤ j ∧ j ≤ 4 ∧
        req.timestamp = s.current_time + j) ∧
    s'.current_time = s.current_time + 5 ∧
    s.current_time < s'.current_time := by
  obtain ⟨_, hbatch, hstate⟩ := generate_ride_requests_eq_some hout
  refine ⟨?_, by rw [hstate],
    by rw [hstate]; exact lt_add_of_pos_right _ (by norm_num)⟩
  intro req hreq
  rw [hbatch, List.mem_map] at hreq
  obtain ⟨i, _, rfl⟩ := hreq
  exact ⟨(rnd i).jitter, (hj i).1, (hj i).2, rfl⟩

/-- C8 witness: timestamps and clock advancement at the concrete one-user
state (jitter draw fixed to 3). -/
theorem tick_timestamps_and_clock_witness :
    (∀ req ∈ ((List.range 1).map
        (fun i => mkRequest onePoolState.users onePoolState.current_time
          (testReqRand i))),
      ∃ j : ℤ, 0 ≤ j ∧ j ≤ 4 ∧
        req.timestamp = onePoolState.current_time + j) ∧
    ({ onePoolState with
        current_time := onePoolState.current_time + 5 } : GenState).current_time
      = onePoolState.current_time + 5 ∧
    onePoolState.current_time
      < ({ onePoolState with
            current_time := onePoolState.current_time + 5 } : GenState).current_time :=
  tick_timestamps_and_clock onePoolState 1 testReqRand
    ((List.range 1).map
      (fun i => mkRequest onePoolState.users onePoolState.current_time
        (testReqRand i)))
    { onePoolState with current_time := onePoolState.current_time + 5 }
    (fun _ => by norm_num [testReqRand])
    tick_onePoolState_eval

/-! ## C9 -/

/-- C9: a successful tick leaves the driver pool, the user pool, the
`active_rides` map and the configured request rate unchanged; the only
state component it mutates is the clock, which moves forward 5 seconds. -/
theorem tick_frame (s : GenState) (g : ℚ) (rnd : ℕ → ReqRand)
    (batch : List RideRequest) (s' : GenState)
    (hout : generate_ride_requests s g rnd = some (batch, s')) :
    s'.users = s.users ∧ s'.drivers = s.drivers ∧
    s'.active_rides = s.active_rides ∧
    s'.base_request_rate = s.base_request_rate ∧
    s'.current_time = s.current_time + 5 := by
  obtain ⟨_, _, hstate⟩ := generate_ride_requests_eq_some hout
  rw [hstate]
  exact ⟨rfl, rfl, rfl, rfl, rfl⟩

/-- C9 witness: the frame condition at the concrete one-user state. -/
theorem tick_frame_witness :
    ({ onePoolState with
        current_time := onePoolState.current_time + 5 } : GenState).users
        = onePoolState.users ∧
    ({ onePoolState with
        current_time := onePoolState.current_time + 5 } : GenState).drivers
        = onePoolState.drivers ∧
    ({ onePoolState with
        current_time := onePoolState.current_time + 5 } : GenState).active_rides
        = onePoolState.active_rides ∧
    ({ onePoolState with
        current_time := onePoolState.current_time + 5 } : GenState).base_request_rate
        = onePoolState.base_request_rate ∧
    ({ onePoolState with
        current_time := onePoolState.current_time + 5 } : GenState).current_time
        = onePoolState.current_time + 5 :=
  tick_frame onePoolState 1 testReqRand
    ((List.range 1).map
      (fun i => mkRequest onePoolState.users onePoolState.current_time
        (testReqRand i)))
    { onePoolState with current_time := onePoolState.current_time + 5 }
    tick_onePoolState_eval

/-! ## Demand-factor helper lemmas -/

/-- Every branch of the per-category `if/elif` chain adds a nonnegative
amount. -/
lemma categoryIncrement_nonneg (cat : Category) (hour : ℕ) :
    0 ≤ categoryIncrement cat hour := by
  cases cat <;> simp only [categoryIncrement] <;> split_ifs <;> norm_num

/-- Folding conditional additions of a nonnegative amount never decreases
the accumulator. -/
lemma le_foldl_ite_add (c : Hotspot → Prop) [DecidablePred c] (k : ℚ)
    (hk : 0 ≤ k) :
    ∀ (l : List Hotspot) (acc : ℚ),
      acc ≤ l.foldl (fun a h => if c h then a + k else a) acc := by
  intro l
  induction l with
  | nil => intro acc; simp
  | cons hd tl ih =>
      intro acc
      refine le_trans ?_ (ih _)
      dsimp only
      split_ifs <;> linarith

/-- Folding conditional additions equals the accumulator plus the sum of
the conditional amounts. -/
lemma foldl_ite_add_eq_sum (c : Hotspot → Prop) [DecidablePred c] (k : ℚ) :
    ∀ (l : List Hotspot) (acc : ℚ),
      l.foldl (fun a h => if c h then a + k else a) acc
        = acc + (l.map (fun h => if c h then k else 0)).sum := by
  intro l
  induction l with
  | nil => intro acc; simp
  | cons hd tl ih =>
      intro acc
      simp only [List.foldl_cons, List.map_cons, List.sum_cons, ih]
      split_ifs <;> ring

/-! ## C10 -/

/-- C10: for every abstracted distance function, location and hour, the
demand factor is at least `1.0`: the accumulator starts at `1.0`, every
hotspot contribution is nonnegative, and `max(0.1, ·)` cannot lower it, so
the `0.1` floor never binds. -/
theorem demand_factor_ge_one (dist : Point → Point → ℚ) (location : Point)
    (hour : ℕ) : 1 ≤ get_hotspot_demand_factor dist location hour := by
  have hstep : ∀ (cat : Category) (acc : ℚ),
      acc ≤ (hotspots cat).foldl
        (fun acc2 h =>
          if dist location h.center ≤ h.radius * 111 then
            acc2 + categoryIncrement cat hour
          else acc2) acc :=
    fun cat acc =>
      le_foldl_ite_add (fun h => dist location h.center ≤ h.radius * 111)
        (categoryIncrement cat hour) (categoryIncrement_nonneg cat hour)
        (hotspots cat) acc
  have hfold : (1 : ℚ) ≤ allCategories.foldl (fun acc cat =>
      (hotspots cat).foldl (fun acc2 h =>
        if dist location h.center ≤ h.radius * 111 then
          acc2 + categoryIncrement cat hour
        else acc2) acc) 1 := by
    simp only [allCategories, List.foldl_cons, List.foldl_nil]
    exact le_trans (le_trans (le_trans (hstep _ 1) (hstep _ _)) (hstep _ _))
      (hstep _ _)
  exact le_trans hfold (le_max_right _ _)

/-! ## C3 -/

/-- Spec-side definition, following the claim's table word for word (the
hour windows are inclusive: "business +2.0 at 07-09" etc.; the windows of
one category are pairwise disjoint for hours below 24, so the sum of the
conditional terms is the single applicable increment). -/
def specTableIncrement (cat : Category) (hour : ℕ) : ℚ :=
  match cat with
  | Category.business_districts =>
      (if 7 ≤ hour ∧ hour ≤ 9 then 2 else 0) +
      (if 16 ≤ hour ∧ hour ≤ 18 then 5/2 else 0) +
      (if 12 ≤ hour ∧ hour ≤ 13 then 3/2 else 0) +
      (if (22 ≤ hour ∧ hour ≤ 23) ∨ hour ≤ 4 then 1/5 else 0)
  | Category.residential_areas =>
      (if 6 ≤ hour ∧ hour ≤ 8 then 9/5 else 0) +
      (if 17 ≤ hour ∧ hour ≤ 19 then 6/5 else 0)
  | Category.entertainment_zones =>
      (if 18 ≤ hour ∧ hour ≤ 21 then 2 else 0) +
      (if (22 ≤ hour ∧ hour ≤ 23) ∨ hour ≤ 2 then 3 else 0)
  | Category.airports =>
      1 + (if (7 ≤ hour ∧ hour ≤ 9) ∨ (16 ≤ hour ∧ hour ≤ 19) then 1/2 else 0)

/-- Spec-side definition: the total increment a category's hotspots
contribute, summed over the hotspots whose distance to the location is at
most `radius * 111` km. -/
def specCategoryContribution (dist : Point → Point → ℚ) (location : Point)
    (hour : ℕ) (cat : Category) : ℚ :=
  ((hotspots cat).map (fun h =>
    if dist location h.center ≤ h.radius * 111 then specTableIncrement cat hour
    else 0)).sum

/-- Spec-side definition of the demand factor as the claim states it:
`1.0` plus the additive accumulation of the table increments over all
in-range hotspots, floored at `0.1`. -/
def spec_demand_factor (dist : Point → Point → ℚ) (location : Point)
    (hour : ℕ) : ℚ :=
  max (1/10)
    (1 + specCategoryContribution dist location hour Category.business_districts
       + specCategoryContribution dist location hour Category.residential_areas
       + specCategoryContribution dist location hour Category.entertainment_zones
       + specCategoryContribution dist location hour Category.airports)

/-- Below hour 24, the code's `if/elif` chain and the claim's table agree
category by category. -/
lemma categoryIncrement_eq_specTable (cat : Category) (hour : ℕ)
    (h24 : hour < 24) : categoryIncrement cat hour = specTableIncrement cat hour := by
  cases cat <;> (interval_cases hour <;> norm_num [categoryIncrement, specTableIncrement])

/-- C3: for every abstracted distance function, every location and every
hour in `[0, 23]`, the code's demand factor equals the claim's: `1.0` plus
the table increment for each hotspot within `radius * 111` km, accumulated
additively over all in-range hotspots, floored at `0.1`. -/
theorem demand_factor_matches_spec_table (dist : Point → Point → ℚ)
    (location : Point) (hour : ℕ) (h24 : hour < 24) :
    get_hotspot_demand_factor dist location hour
      = spec_demand_factor dist location hour := by
  have hinc : ∀ cat, categoryIncrement cat hour = specTableIncrement cat hour :=
    fun cat => categoryIncrement_eq_specTable cat hour h24
  simp only [get_hotspot_demand_factor, spec_demand_factor,
    specCategoryContribution, allCategories, List.foldl_cons, List.foldl_nil,
    foldl_ite_add_eq_sum, hinc]

/-- C3 witness: the equality at a concrete distance function (constant
`1000` km, out of range of every hotspot), location and hour. -/
theorem demand_factor_matches_spec_table_witness :
    get_hotspot_demand_factor (fun _ _ => 1000) (0, 0) 8
      = spec_demand_factor (fun _ _ => 1000) (0, 0) 8 :=
  demand_factor_matches_spec_table (fun _ _ => 1000) (0, 0) 8 (by norm_num)

/-! ## C5 -/

/-- The default bounding box of `CityGrid.__init__`. -/
def defaultGrid : CityGridCfg := {}

/-- Fixed draws for the location sampler: the airport hotspot, angle with
cosine `3/5` and sine `4/5`, radial offset `0.01` degrees. -/
def testLocRand : LocRand :=
  { branch_roll := 0, category := Category.airports, hotspot_idx := 0,
    angle_cos := 3/5, angle_sin := 4/5, r := 1/100, u_lat := 0, u_lon := 0 }

/-- C5: for valid random draws (`random.random()` in `[0,1)`, the radial
draw in `[0, radius]`, cosine and sine of the angle on the unit circle,
unit draws in `[0,1]`, a well-ordered bounding box): with `hotspot_bias = 1`
the hotspot branch is always taken and the sampled point lies within the
chosen hotspot's radius (degree units) of its center; with
`hotspot_bias = 0` the uniform branch is always taken and the sampled
latitude and longitude lie within the configured bounding ranges. -/
theorem get_random_location_in_bounds (g : CityGridCfg) (bias : ℚ)
    (rnd : LocRand)
    (hroll0 : 0 ≤ rnd.branch_roll) (hroll1 : rnd.branch_roll < 1)
    (htrig : rnd.angle_cos ^ 2 + rnd.angle_sin ^ 2 = 1)
    (hr0 : 0 ≤ rnd.r) (hr1 : rnd.r ≤ (chosenHotspot rnd).radius)
    (hlat0 : 0 ≤ rnd.u_lat) (hlat1 : rnd.u_lat ≤ 1)
    (hlon0 : 0 ≤ rnd.u_lon) (hlon1 : rnd.u_lon ≤ 1)
    (hglat : g.lat_range.1 ≤ g.lat_range.2)
    (hglon : g.lon_range.1 ≤ g.lon_range.2) :
    (bias = 1 →
      ((get_random_location g bias rnd).1 - (chosenHotspot rnd).center.1) ^ 2
        + ((get_random_location g bias rnd).2 - (chosenHotspot rnd).center.2) ^ 2
        ≤ (chosenHotspot rnd).radius ^ 2) ∧
    (bias = 0 →
      g.lat_range.1 ≤ (get_random_location g bias rnd).1 ∧
      (get_random_location g bias rnd).1 ≤ g.lat_range.2 ∧
      g.lon_range.1 ≤ (get_random_location g bias rnd).2 ∧
      (get_random_location g bias rnd).2 ≤ g.lon_range.2) := by
  constructor
  · intro hb
    subst hb
    unfold get_random_location
    rw [if_pos hroll1]
    have key : (rnd.r * rnd.angle_cos) ^ 2 + (rnd.r * rnd.angle_sin) ^ 2
        = rnd.r ^ 2 := by
      have expand : (rnd.r * rnd.angle_cos) ^ 2 + (rnd.r * rnd.angle_sin) ^ 2
          = rnd.r ^ 2 * (rnd.angle_cos ^ 2 + rnd.angle_sin ^ 2) := by ring
      rw [expand, htrig, mul_one]
    simp only [add_sub_cancel_left]
    rw [key]
    exact pow_le_pow_left₀ hr0 hr1 2
  · intro hb
    subst hb
    unfold get_random_location
    rw [if_neg (not_lt.mpr hroll0)]
    dsimp only
    refine ⟨?_, ?_, ?_, ?_⟩ <;> nlinarith

/-- C5 witness: the bound at the concrete draws of `testLocRand` with
`hotspot_bias = 1` and the default bounding box. -/
theorem get_random_location_in_bounds_witness :
    ((1 : ℚ) = 1 →
      ((get_random_location defaultGrid 1 testLocRand).1
          - (chosenHotspot testLocRand).center.1) ^ 2
        + ((get_random_location defaultGrid 1 testLocRand).2
          - (chosenHotspot testLocRand).center.2) ^ 2
        ≤ (chosenHotspot testLocRand).radius ^ 2) ∧
    ((1 : ℚ) = 0 →
      defaultGrid.lat_range.1 ≤ (get_random_location defaultGrid 1 testLocRand).1 ∧
      (get_random_location defaultGrid 1 testLocRand).1 ≤ defaultGrid.lat_range.2 ∧
      defaultGrid.lon_range.1 ≤ (get_random_location defaultGrid 1 testLocRand).2 ∧
      (get_random_location defaultGrid 1 testLocRand).2 ≤ defaultGrid.lon_range.2) :=
  get_random_location_in_bounds defaultGrid 1 testLocRand
    (by norm_num [testLocRand]) (by norm_num [testLocRand])
    (by norm_num [testLocRand])
    (by norm_num [testLocRand])
    (by norm_num [testLocRand, chosenHotspot, hotspots])
    (by norm_num [testLocRand]) (by norm_num [testLocRand])
    (by norm_num [testLocRand]) (by norm_num [testLocRand])
    (by norm_num [defaultGrid]) (by norm_num [defaultGrid])

/-! ## C4 -/

/-- C4 (counterexample): the returned fare is not the fare formula applied
to the returned (rounded) distance and duration: at raw distance 2 km,
speed 24 km/h and traffic delay 1.49 min, the code returns fare `8.27`
(computed from raw duration `6.49`), while the formula over the returned
duration `6` gives `8.10`. -/
theorem trip_fare_not_formula_of_returned_values :
    (calculate_trip_details (fun _ _ => 2) 24 (149/100) (0, 0) (0, 1)).2.2
      ≠ pyRound2 (5/2
          + (calculate_trip_details (fun _ _ => 2) 24 (149/100) (0, 0) (0, 1)).1
              * (7/4)
          + ((calculate_trip_details (fun _ _ => 2) 24 (149/100) (0, 0)
              (0, 1)).2.1 : ℚ) * (7/20)) := by
  norm_num [calculate_trip_details, pyRound2, pyRound]

/-- C4 (amended): there is a single sampled distance `d` from which all
three returned quantities are computed — distance is not resampled for
duration versus fare: the returned distance is `d` rounded to 2 decimals,
the returned duration is the raw `m = (d / speed) * 60 + delay` rounded to
an integer, and the returned fare is `2.50 + d * 1.75 + m * 0.35` — the
formula over the raw, pre-rounding `d` and `m` — rounded to 2 decimals. -/
theorem trip_estimate_single_distance (dist : Point → Point → ℚ)
    (avg_speed delay : ℚ) (pickup destination : Point) :
    ∃ d m : ℚ, d = dist pickup destination
      ∧ m = (d / avg_speed) * 60 + delay
      ∧ calculate_trip_details dist avg_speed delay pickup destination
          = (pyRound2 d, pyRound m, pyRound2 (5/2 + d * (7/4) + m * (7/20))) :=
  ⟨dist pickup destination, (dist pickup destination / avg_speed) * 60 + delay,
    rfl, rfl, rfl⟩

end RideHailing
